import Mathlib

/-!
Shallow embedding of the DocTracker client logic: the document status and
approval state machine of `src/pages/DocumentDetails.jsx`, and the document
creation and file upload flow of `src/pages/CreateDocument.jsx`, over the
column set of `supabase_schema.sql`.  Remote writes are modelled by the list
of row inserts and updates the success path of each handler issues;
timestamps are naturals; the tri-state boolean column `admin_approved` is an
`Option Bool`.
-/

namespace DocTracker

/-- Document status values, from the CHECK constraint on `documents.status`
in supabase_schema.sql and the string literals used by the client. -/
inductive DocStatus where
  | pending
  | in_progress
  | completed
  | rejected
deriving DecidableEq, Repr

/-- A row of `document_signatories` (supabase_schema.sql lines 35-48),
restricted to the columns the client logic reads and writes. -/
structure Signatory where
  id : Nat
  name : String
  is_signed : Bool
  signed_at : Option Nat
  notes : String
  order_index : Nat
  created_at : Nat
deriving DecidableEq, Repr

/-- A row of `documents` (supabase_schema.sql lines 18-32), restricted to the
columns the state machine touches. -/
structure Document where
  id : Nat
  name : String
  requires_admin_approval : Bool
  admin_approved : Option Bool
  admin_approved_by : Option Nat
  admin_approved_at : Option Nat
  status : DocStatus
deriving DecidableEq, Repr

/-- An insert into `document_activity` as issued by the client handlers. -/
structure ActivityInsert where
  document_id : Nat
  user_id : Nat
  action : String
  description : String
deriving DecidableEq, Repr

/-- Result of the signatory toggle handler: the document row, the signatory
rows, and the activity rows inserted by the handler. -/
structure ToggleResult where
  doc : Document
  signatories : List Signatory
  activities : List ActivityInsert
deriving DecidableEq, Repr

/-- The error-free path of `updateSignatureStatus` in DocumentDetails.jsx
lines 116-167: write the target signatory row with the new flag, timestamp
and note; recompute the all-signed conjunction over the list with only
`is_signed` overridden for the target (line 139-144); conditionally mark the
document completed (line 147-154); insert one activity row (line 157-164). -/
def updateSignatureStatus (doc : Document) (signatories : List Signatory)
    (userId : Nat) (signatoryId : Nat) (isSigned : Bool) (now : Nat)
    (notes : String) : ToggleResult :=
  let newSignatories := signatories.map fun sig =>
    if sig.id = signatoryId then
      { sig with is_signed := isSigned,
                 signed_at := if isSigned then some now else none,
                 notes := notes }
    else sig
  let updatedSignatories := signatories.map fun sig =>
    if sig.id = signatoryId then { sig with is_signed := isSigned } else sig
  let allSigned := updatedSignatories.all fun sig => sig.is_signed
  let newDoc :=
    if allSigned = true ∧ doc.admin_approved ≠ some false then
      { doc with status := DocStatus.completed }
    else doc
  { doc := newDoc,
    signatories := newSignatories,
    activities := [{ document_id := doc.id, user_id := userId,
                     action := if isSigned then "signature_added" else "signature_removed",
                     description := if isSigned then "Signatory signed the document"
                                    else "Signatory unsigned the document" }] }

/-- The toggle as invoked from the two buttons in DocumentDetails.jsx lines
625 and 635: no note argument, so the JS default parameter supplies the
empty string. -/
def updateSignatureStatusNoNote (doc : Document) (signatories : List Signatory)
    (userId signatoryId : Nat) (isSigned : Bool) (now : Nat) : ToggleResult :=
  updateSignatureStatus doc signatories userId signatoryId isSigned now ""

/-- Result of the admin approval handler. -/
structure ApprovalResult where
  doc : Document
  activities : List ActivityInsert
deriving DecidableEq, Repr

/-- The error-free path of `handleAdminApproval` in DocumentDetails.jsx lines
174-205: set the three approval columns and insert one activity row.  The
`status` column is not written. -/
def handleAdminApproval (doc : Document) (userId : Nat) (approved : Bool)
    (now : Nat) : ApprovalResult :=
  { doc := { doc with admin_approved := some approved,
                      admin_approved_by := some userId,
                      admin_approved_at := some now },
    activities := [{ document_id := doc.id, user_id := userId,
                     action := if approved then "admin_approved" else "admin_rejected",
                     description := if approved then "Document approved by admin"
                                    else "Document rejected by admin" }] }

/-- JS Math.round on a nonnegative value: floor of x + 1/2, since Math.round
rounds halfway cases toward positive infinity.  The client computes the
percentage in double precision; it is modelled in exact rational
arithmetic. -/
def mathRound (x : ℚ) : Nat := ⌊x + 1 / 2⌋₊

/-- `getSignatureProgress` from DocumentDetails.jsx lines 270-274:
zero when there are no signatories, else Math.round of
(signed count / total count) * 100. -/
def getSignatureProgress (signatories : List Signatory) : Nat :=
  if signatories.length = 0 then 0
  else mathRound ((((signatories.filter fun sig => sig.is_signed).length : ℚ) /
    (signatories.length : ℚ)) * 100)

/-- A sequence of signatory toggles through the no-note entry point, folding
document and signatory state; each element gives the target signatory id,
the new signed flag and the clock reading at that step. -/
def applyToggles (userId : Nat) :
    Document × List Signatory → List (Nat × Bool × Nat) → Document × List Signatory
  | st, [] => st
  | st, op :: rest =>
      let r := updateSignatureStatusNoNote st.1 st.2 userId op.1 op.2.1 op.2.2
      applyToggles userId (r.doc, r.signatories) rest

/-- A file as seen by the upload handler: display name and byte size. -/
structure File where
  name : String
  size : Nat
deriving DecidableEq, Repr

/-- The pending-upload reference kept in component state after a successful
upload (CreateDocument.jsx lines 73-77). -/
structure UploadedFile where
  name : String
  url : String
  path : String
deriving DecidableEq, Repr

/-- A remote call against the storage bucket. -/
inductive StorageCall where
  | upload (path : String)
  | getPublicUrl (path : String)
  | removeObject (path : String)
deriving DecidableEq, Repr

/-- Result of the upload handler: the pending-upload state afterwards, the
storage calls issued, and the user-visible error if any. -/
structure UploadOutcome where
  uploadedFile : Option UploadedFile
  storageCalls : List StorageCall
  errorMessage : Option String
deriving DecidableEq, Repr

/-- Public URL resolution is performed by the storage backend; modelled as a
fixed prefixing of the object path. -/
def publicUrlFor (path : String) : String :=
  "storage/documents/" ++ path

/-- `handleFileUpload` from CreateDocument.jsx lines 47-86, with the remote
upload taken on its success path: no file selected is a no-op; a file larger
than 10 * 1024 * 1024 bytes is rejected with a toast before any storage
call; otherwise the file is stored under userId/now.ext and the
pending-upload state is replaced. -/
def handleFileUpload (uploadedFile : Option UploadedFile) (file : Option File)
    (userId : String) (now : Nat) : UploadOutcome :=
  match file with
  | none =>
      { uploadedFile := uploadedFile, storageCalls := [], errorMessage := none }
  | some f =>
      if f.size > 10 * 1024 * 1024 then
        { uploadedFile := uploadedFile, storageCalls := [],
          errorMessage := some "File size must be less than 10MB" }
      else
        let fileExt := (f.name.splitOn ".").getLastD ""
        let fileName := userId ++ "/" ++ toString now ++ "." ++ fileExt
        { uploadedFile := some { name := f.name, url := publicUrlFor fileName,
                                 path := fileName },
          storageCalls := [StorageCall.upload fileName,
                           StorageCall.getPublicUrl fileName],
          errorMessage := none }

/-- One signatory entry of the creation form, with the order_index field the
form data carries (CreateDocument.jsx lines 34-36 and 101-108). -/
structure SignatoryForm where
  name : String
  position : String
  email : String
  phone : String
  order_index : Nat
deriving DecidableEq, Repr

/-- The creation form data. -/
structure DocumentForm where
  name : String
  description : String
  requires_admin_approval : Bool
  signatories : List SignatoryForm
deriving DecidableEq, Repr

/-- Client-side validation collected from the react-hook-form register
rules: document name required with minimum length 3 (CreateDocument.jsx
lines 223-226) and every signatory name required (lines 377-379).
handleSubmit invokes onSubmit only when every rule passes. -/
def formValid (f : DocumentForm) : Bool :=
  f.name != "" && decide (3 ≤ f.name.length) &&
    f.signatories.all fun s => s.name != ""

/-- An insert into `documents` as issued by onSubmit (CreateDocument.jsx
lines 128-136). -/
structure DocumentInsert where
  name : String
  description : String
  file_url : String
  file_name : String
  created_by : Nat
  requires_admin_approval : Bool
  status : DocStatus
deriving DecidableEq, Repr

/-- An insert into `document_signatories` as issued by onSubmit
(CreateDocument.jsx lines 150-158). -/
structure SignatoryInsert where
  document_id : Nat
  name : String
  position : Option String
  email : Option String
  phone : Option String
  order_index : Nat
  is_signed : Bool
deriving DecidableEq, Repr

/-- Result of a creation submission: the rows inserted into each table and
the user-visible error if any. -/
structure CreateOutcome where
  documentInserts : List DocumentInsert
  signatoryInserts : List SignatoryInsert
  activityInserts : List ActivityInsert
  errorMessage : Option String
deriving DecidableEq, Repr

/-- The map with running index over the name-filtered signatories
(CreateDocument.jsx lines 150-158): `order_index` is the position in the
filtered list, the `order_index` carried by the form entry is not read, and
the falsy-to-null coercion of `sig.position || null` maps the empty string
to none. -/
def buildSignatoryInserts (docId : Nat) : Nat → List SignatoryForm → List SignatoryInsert
  | _, [] => []
  | i, s :: rest =>
      { document_id := docId, name := s.name,
        position := if s.position = "" then none else some s.position,
        email := if s.email = "" then none else some s.email,
        phone := if s.phone = "" then none else some s.phone,
        order_index := i, is_signed := false } ::
        buildSignatoryInserts docId (i + 1) rest

/-- `onSubmit` guarded by the handleSubmit validation (CreateDocument.jsx
lines 119-187), remote inserts on their success path.  `docId` stands for
the id returned by the document insert.  When validation fails, handleSubmit
never calls onSubmit, so no insert is issued; when no file is attached,
onSubmit returns before any insert (lines 120-123); signatories whose name
is blank after trimming are dropped (line 149). -/
def submitCreateDocument (form : DocumentForm) (uploadedFile : Option UploadedFile)
    (userId docId : Nat) : CreateOutcome :=
  if formValid form then
    match uploadedFile with
    | none =>
        { documentInserts := [], signatoryInserts := [], activityInserts := [],
          errorMessage := some "Please upload a document file" }
    | some uf =>
        { documentInserts := [{ name := form.name, description := form.description,
                                file_url := uf.url, file_name := uf.name,
                                created_by := userId,
                                requires_admin_approval := form.requires_admin_approval,
                                status := DocStatus.pending }],
          signatoryInserts :=
            buildSignatoryInserts docId 0
              (form.signatories.filter fun s => s.name.trim != ""),
          activityInserts := [{ document_id := docId, user_id := userId,
                                action := "created",
                                description := "Document tracker created" }],
          errorMessage := none }
  else
    { documentInserts := [], signatoryInserts := [], activityInserts := [],
      errorMessage := none }

/-- Projection of the signatory list written by the toggle handler. -/
theorem updateSignatureStatus_signatories_def (doc : Document)
    (signatories : List Signatory) (userId signatoryId : Nat) (isSigned : Bool)
    (now : Nat) (notes : String) :
    (updateSignatureStatus doc signatories userId signatoryId isSigned now notes).signatories =
      signatories.map fun sig =>
        if sig.id = signatoryId then
          { sig with is_signed := isSigned,
                     signed_at := if isSigned then some now else none,
                     notes := notes }
        else sig := rfl

/-- Projection of the document row after the toggle handler. -/
theorem updateSignatureStatus_doc_def (doc : Document)
    (signatories : List Signatory) (userId signatoryId : Nat) (isSigned : Bool)
    (now : Nat) (notes : String) :
    (updateSignatureStatus doc signatories userId signatoryId isSigned now notes).doc =
      if ((signatories.map fun sig =>
            if sig.id = signatoryId then { sig with is_signed := isSigned } else sig).all
              fun sig => sig.is_signed) = true ∧ doc.admin_approved ≠ some false then
        { doc with status := DocStatus.completed }
      else doc := rfl

/-- The all-signed conjunction over the fully written signatory list agrees
with the conjunction over the list where only `is_signed` is overridden. -/
theorem all_toggle_eq (signatories : List Signatory) (signatoryId : Nat)
    (isSigned : Bool) (now : Nat) (notes : String) :
    ((signatories.map fun sig =>
        if sig.id = signatoryId then
          { sig with is_signed := isSigned,
                     signed_at := if isSigned then some now else none,
                     notes := notes }
        else sig).all fun sig => sig.is_signed) =
    ((signatories.map fun sig =>
        if sig.id = signatoryId then { sig with is_signed := isSigned } else sig).all
          fun sig => sig.is_signed) := by
  induction signatories with
  | nil => rfl
  | cons head tail ih =>
      simp only [List.map_cons, List.all_cons, ih]
      by_cases h : head.id = signatoryId <;> simp [h]

/-- A toggle on a document whose `admin_approved` column is false leaves the
document row untouched: the completion guard in DocumentDetails.jsx line 147
requires `admin_approved !== false`. -/
theorem toggle_doc_unchanged_of_rejected (doc : Document)
    (signatories : List Signatory) (userId signatoryId : Nat) (isSigned : Bool)
    (now : Nat) (h : doc.admin_approved = some false) :
    (updateSignatureStatusNoNote doc signatories userId signatoryId isSigned now).doc = doc := by
  rw [updateSignatureStatusNoNote, updateSignatureStatus_doc_def, if_neg]
  intro hc
  exact hc.2 h

/-- Any toggle sequence on a document whose `admin_approved` column is false
leaves the document row untouched. -/
theorem applyToggles_fst_of_rejected (userId : Nat) (doc : Document)
    (h : doc.admin_approved = some false) :
    ∀ (ops : List (Nat × Bool × Nat)) (signatories : List Signatory),
      (applyToggles userId (doc, signatories) ops).1 = doc := by
  intro ops
  induction ops with
  | nil => intro s; rfl
  | cons op rest ih =>
      intro s
      simp only [applyToggles]
      rw [toggle_doc_unchanged_of_rejected doc s userId op.1 op.2.1 op.2.2 h]
      exact ih _

/-- The floor of 100 + 1/2 over the rationals. -/
theorem floor_hundred_half : ⌊(100 + 1 / 2 : ℚ)⌋₊ = 100 := by
  have h : (100 + 1 / 2 : ℚ) = ((201 : ℕ) : ℚ) / ((2 : ℕ) : ℚ) := by norm_num
  rw [h, Nat.floor_div_eq_div]

/-- The order_index values written by the creation flow form the arithmetic
progression starting at the running index. -/
theorem buildSignatoryInserts_map_order_index (docId : Nat) :
    ∀ (i : Nat) (l : List SignatoryForm),
      ((buildSignatoryInserts docId i l).map fun s => s.order_index) =
        List.range' i l.length := by
  intro i l
  induction l generalizing i with
  | nil => rfl
  | cons head tail ih =>
      simp [buildSignatoryInserts, List.range'_succ, ih]

/-- The names written by the creation flow are the filtered form names in
order. -/
theorem buildSignatoryInserts_map_name (docId : Nat) :
    ∀ (i : Nat) (l : List SignatoryForm),
      ((buildSignatoryInserts docId i l).map fun s => s.name) =
        l.map fun s => s.name := by
  intro i l
  induction l generalizing i with
  | nil => rfl
  | cons head tail ih =>
      simp [buildSignatoryInserts, ih]

/-- Decidable form of the signed-timestamp invariant: `is_signed` holds
exactly when `signed_at` carries a timestamp not earlier than the creation
time. -/
def signedAtConsistent (s : Signatory) : Bool :=
  s.is_signed ==
    match s.signed_at with
    | some t => decide (s.created_at ≤ t)
    | none => false

/-- Document for the claim C1 counterexample, in its freshly created shape:
status pending, `admin_approved` false as the schema column default. -/
def c1Doc : Document :=
  { id := 1, name := "Field Trip Form", requires_admin_approval := true,
    admin_approved := some false, admin_approved_by := none,
    admin_approved_at := none, status := DocStatus.pending }

/-- The single signatory of the claim C1 counterexample. -/
def c1Sig : Signatory :=
  { id := 21, name := "A Dean", is_signed := false, signed_at := none,
    notes := "", order_index := 0, created_at := 0 }

/-- Step 1 of the claim C1 counterexample run: an admin approves. -/
def c1Step1 : ApprovalResult := handleAdminApproval c1Doc 2 true 10

/-- Step 2: the signatory is toggled to signed; the completion guard fires
and the status becomes completed. -/
def c1Step2 : ToggleResult :=
  updateSignatureStatusNoNote c1Step1.doc [c1Sig] 2 21 true 11

/-- Step 3: the signatory is toggled back to unsigned; no revert branch
exists, so the status stays completed. -/
def c1Step3 : ToggleResult :=
  updateSignatureStatusNoNote c1Step2.doc c1Step2.signatories 2 21 false 12

/-- C1, counterexample: after the error-free sequence approve, sign, unsign,
the document status is completed while not every signatory is signed, so the
claimed equivalence fails at this concrete input. -/
theorem claim1_counterexample :
    ¬ (c1Step3.doc.status = DocStatus.completed ↔
        (c1Step3.signatories.all fun s => s.is_signed) = true ∧
          (c1Step3.doc.requires_admin_approval = false ∨
            c1Step3.doc.admin_approved ≠ some false)) := by decide

/-- C1, amended: after a signatory toggle completes without error, the
status is completed exactly when every signatory is signed and
`admin_approved` is not false (the `requires_admin_approval` flag is not
consulted), or when the status was already completed before the toggle; an
approval action by itself never changes the status. -/
theorem claim1_toggle_completed_iff_or_stale (doc : Document)
    (signatories : List Signatory) (userId signatoryId : Nat)
    (isSigned approved : Bool) (now : Nat) (notes : String) :
    ((updateSignatureStatus doc signatories userId signatoryId isSigned now notes).doc.status
        = DocStatus.completed ↔
      (((updateSignatureStatus doc signatories userId signatoryId isSigned now notes).signatories.all
          fun s => s.is_signed) = true ∧ doc.admin_approved ≠ some false) ∨
        doc.status = DocStatus.completed) ∧
    (handleAdminApproval doc userId approved now).doc.status = doc.status := by
  constructor
  · rw [updateSignatureStatus_doc_def, updateSignatureStatus_signatories_def,
      all_toggle_eq]
    by_cases h : ((signatories.map fun sig =>
        if sig.id = signatoryId then { sig with is_signed := isSigned } else sig).all
          fun sig => sig.is_signed) = true ∧ doc.admin_approved ≠ some false
    · rw [if_pos h]
      simp [h.1, h.2]
    · rw [if_neg h]
      constructor
      · exact fun hs => Or.inr hs
      · rintro (habs | hs)
        · exact absurd habs h
        · exact hs
  · rfl

/-- Document for the claim C2 counterexample: completed, two signed
signatories. -/
def c2Doc : Document :=
  { id := 3, name := "Budget Approval Request", requires_admin_approval := false,
    admin_approved := some true, admin_approved_by := some 2,
    admin_approved_at := some 4, status := DocStatus.completed }

/-- First signatory of the claim C2 counterexample, signed. -/
def c2Sig1 : Signatory :=
  { id := 31, name := "A Dean", is_signed := true, signed_at := some 5,
    notes := "", order_index := 0, created_at := 0 }

/-- Second signatory of the claim C2 counterexample, signed. -/
def c2Sig2 : Signatory :=
  { id := 32, name := "B Principal", is_signed := true, signed_at := some 6,
    notes := "", order_index := 1, created_at := 0 }

/-- C2, counterexample: toggling one signatory of a completed document back
to unsigned leaves the status completed; it does not become in_progress as
claimed. -/
theorem claim2_counterexample :
    (updateSignatureStatusNoNote c2Doc [c2Sig1, c2Sig2] 7 31 false 9).doc.status
        ≠ DocStatus.in_progress ∧
    (updateSignatureStatusNoNote c2Doc [c2Sig1, c2Sig2] 7 31 false 9).doc.status
        = DocStatus.completed := by decide

/-- C2, amended: toggling any present signatory of a completed document to
unsigned leaves the document status completed; the code has no branch that
reverts the status to in_progress. -/
theorem claim2_unsign_on_completed_keeps_completed (doc : Document)
    (signatories : List Signatory) (userId signatoryId now : Nat)
    (hstatus : doc.status = DocStatus.completed)
    (hmem : ∃ s ∈ signatories, s.id = signatoryId) :
    (updateSignatureStatusNoNote doc signatories userId signatoryId false now).doc.status
        = DocStatus.completed ∧
    (updateSignatureStatusNoNote doc signatories userId signatoryId false now).doc.status
        ≠ DocStatus.in_progress := by
  have hall : ¬ (((signatories.map fun sig =>
      if sig.id = signatoryId then { sig with is_signed := false } else sig).all
        fun sig => sig.is_signed) = true ∧ doc.admin_approved ≠ some false) := by
    rintro ⟨h1, -⟩
    obtain ⟨s, hs, hid⟩ := hmem
    have hmm : ({ s with is_signed := false } : Signatory) ∈
        signatories.map fun sig =>
          if sig.id = signatoryId then { sig with is_signed := false } else sig := by
      have hmap := List.mem_map_of_mem (fun sig =>
        if sig.id = signatoryId then { sig with is_signed := false } else sig) hs
      simpa [hid] using hmap
    have hfalse := List.all_eq_true.mp h1 _ hmm
    simp at hfalse
  rw [updateSignatureStatusNoNote, updateSignatureStatus_doc_def, if_neg hall]
  refine ⟨hstatus, ?_⟩
  rw [hstatus]
  decide

/-- C2, witness for the amended theorem at a concrete input. -/
theorem claim2_witness :
    (updateSignatureStatusNoNote c2Doc [c2Sig1, c2Sig2] 7 32 false 9).doc.status
        = DocStatus.completed ∧
    (updateSignatureStatusNoNote c2Doc [c2Sig1, c2Sig2] 7 32 false 9).doc.status
        ≠ DocStatus.in_progress :=
  claim2_unsign_on_completed_keeps_completed c2Doc [c2Sig1, c2Sig2] 7 32 9
    (by decide) (by decide)

/-- C3: every error-free signatory toggle and every error-free approval
action inserts exactly one activity row, and that row records the acting
user, the document and the action code of the transition. -/
theorem claim3_one_activity_per_transition (doc : Document)
    (signatories : List Signatory) (userId signatoryId : Nat)
    (isSigned approved : Bool) (now : Nat) (notes : String) :
    (updateSignatureStatus doc signatories userId signatoryId isSigned now notes).activities.length
        = 1 ∧
    ((updateSignatureStatus doc signatories userId signatoryId isSigned now notes).activities.all
        fun a => a.user_id == userId && a.document_id == doc.id &&
          a.action == (if isSigned then "signature_added" else "signature_removed")) = true ∧
    (handleAdminApproval doc userId approved now).activities.length = 1 ∧
    ((handleAdminApproval doc userId approved now).activities.all
        fun a => a.user_id == userId && a.document_id == doc.id &&
          a.action == (if approved then "admin_approved" else "admin_rejected")) = true := by
  refine ⟨rfl, ?_, rfl, ?_⟩
  · simp [updateSignatureStatus]
  · simp [handleAdminApproval]

/-- C4: the signature progress percentage is zero when there are no
signatories, equals the rounding of 100 * signed count / total count
otherwise, is exactly 100 when all signatories are signed, and always lies
between 0 and 100. -/
theorem claim4_progress_spec (signatories : List Signatory) :
    (signatories.length = 0 → getSignatureProgress signatories = 0) ∧
    (signatories.length ≠ 0 →
      (getSignatureProgress signatories : ℤ) =
        round (100 * ((signatories.filter fun s => s.is_signed).length : ℚ) /
          (signatories.length : ℚ))) ∧
    (signatories ≠ [] → (signatories.all fun s => s.is_signed) = true →
      getSignatureProgress signatories = 100) ∧
    0 ≤ getSignatureProgress signatories ∧
    getSignatureProgress signatories ≤ 100 := by
  refine ⟨?_, ?_, ?_, Nat.zero_le _, ?_⟩
  · intro h
    simp [getSignatureProgress, h]
  · intro ht
    simp only [getSignatureProgress, mathRound, if_neg ht]
    rw [Int.natCast_floor_eq_floor (by positivity), round_eq]
    congr 1
    ring
  · intro hne hall
    have ht : signatories.length ≠ 0 := by
      simpa [List.length_eq_zero] using hne
    have hfil : signatories.filter (fun s => s.is_signed) = signatories :=
      List.filter_eq_self.mpr fun a ha => List.all_eq_true.mp hall a ha
    simp only [getSignatureProgress, mathRound, if_neg ht, hfil]
    rw [div_self (Nat.cast_ne_zero.mpr ht), one_mul]
    exact floor_hundred_half
  · by_cases h : signatories.length = 0
    · simp [getSignatureProgress, h]
    · simp only [getSignatureProgress, mathRound, if_neg h]
      have ht : (0 : ℚ) < (signatories.length : ℚ) := by
        exact_mod_cast Nat.pos_of_ne_zero h
      have hst : ((signatories.filter fun s => s.is_signed).length : ℚ) ≤
          (signatories.length : ℚ) := by
        exact_mod_cast List.length_filter_le _ _
      have h1 : ((signatories.filter fun s => s.is_signed).length : ℚ) /
          (signatories.length : ℚ) ≤ 1 := by
        rw [div_le_one ht]
        exact hst
      have hq : ((signatories.filter fun s => s.is_signed).length : ℚ) /
          (signatories.length : ℚ) * 100 + 1 / 2 ≤ 100 + 1 / 2 := by
        have h2 := mul_le_mul_of_nonneg_right h1 (by norm_num : (0 : ℚ) ≤ 100)
        linarith
      calc ⌊((signatories.filter fun s => s.is_signed).length : ℚ) /
            (signatories.length : ℚ) * 100 + 1 / 2⌋₊
          ≤ ⌊(100 + 1 / 2 : ℚ)⌋₊ := Nat.floor_le_floor hq
        _ = 100 := floor_hundred_half

/-- Signatory for the claim C4 witness, signed. -/
def c4Sig : Signatory :=
  { id := 41, name := "A Dean", is_signed := true, signed_at := some 5,
    notes := "", order_index := 0, created_at := 0 }

/-- C4, witness: a single signed signatory gives progress 100, and the empty
list gives progress 0. -/
theorem claim4_witness :
    getSignatureProgress [c4Sig] = 100 ∧ getSignatureProgress [] = 0 :=
  ⟨(claim4_progress_spec [c4Sig]).2.2.1 (by decide) (by decide),
   (claim4_progress_spec []).1 rfl⟩

/-- C5: under a monotone clock, a toggle preserves the invariant that
`is_signed` holds exactly when `signed_at` is a timestamp not earlier than
the creation time, and the toggled row receives `signed_at = now` when
signing and `signed_at = null` when unsigning. -/
theorem claim5_signed_at_invariant (doc : Document) (signatories : List Signatory)
    (userId signatoryId : Nat) (isSigned : Bool) (now : Nat) (notes : String)
    (hclock : ∀ s ∈ signatories, s.created_at ≤ now)
    (hinv : (signatories.all fun s => signedAtConsistent s) = true) :
    ((updateSignatureStatus doc signatories userId signatoryId isSigned now notes).signatories.all
        fun s => signedAtConsistent s) = true ∧
    (((updateSignatureStatus doc signatories userId signatoryId isSigned now notes).signatories.filter
        fun s => s.id == signatoryId).all
        fun s => s.is_signed == isSigned &&
          s.signed_at == (if isSigned then some now else none)) = true := by
  constructor
  · rw [updateSignatureStatus_signatories_def, List.all_map]
    apply List.all_eq_true.mpr
    intro s hs
    simp only [Function.comp_apply]
    by_cases h : s.id = signatoryId
    · rw [if_pos h]
      cases isSigned with
      | true => simp [signedAtConsistent, hclock s hs]
      | false => simp [signedAtConsistent]
    · rw [if_neg h]
      exact List.all_eq_true.mp hinv s hs
  · rw [updateSignatureStatus_signatories_def]
    apply List.all_eq_true.mpr
    intro x hx
    obtain ⟨hmemf, hidf⟩ := List.mem_filter.mp hx
    obtain ⟨orig, horig, rfl⟩ := List.mem_map.mp hmemf
    by_cases h : orig.id = signatoryId
    · simp [h]
    · rw [if_neg h] at hidf
      simp at hidf
      exact absurd hidf h

/-- Document for the claim C5 witness. -/
def c5Doc : Document :=
  { id := 5, name := "Event Permission Letter", requires_admin_approval := false,
    admin_approved := none, admin_approved_by := none, admin_approved_at := none,
    status := DocStatus.pending }

/-- Signatory for the claim C5 witness, unsigned with a stored note and a
creation time below the toggle clock. -/
def c5Sig : Signatory :=
  { id := 51, name := "A Dean", is_signed := false, signed_at := none,
    notes := "call first", order_index := 0, created_at := 3 }

/-- C5, witness at a concrete signing toggle. -/
theorem claim5_witness :
    ((updateSignatureStatus c5Doc [c5Sig] 2 51 true 7 "").signatories.all
        fun s => signedAtConsistent s) = true ∧
    (((updateSignatureStatus c5Doc [c5Sig] 2 51 true 7 "").signatories.filter
        fun s => s.id == 51).all
        fun s => s.is_signed == true &&
          s.signed_at == (if (true : Bool) then some 7 else none)) = true :=
  claim5_signed_at_invariant c5Doc [c5Sig] 2 51 true 7 "" (by decide) (by decide)

/-- C6: on a document that requires admin approval and was rejected, no
toggle sequence changes the document row at all, so in particular the
status never becomes completed when it was not already. -/
theorem claim6_rejected_never_completes (doc : Document)
    (signatories : List Signatory) (userId : Nat)
    (ops : List (Nat × Bool × Nat))
    (_hreq : doc.requires_admin_approval = true)
    (hrej : doc.admin_approved = some false)
    (hnc : doc.status ≠ DocStatus.completed) :
    (applyToggles userId (doc, signatories) ops).1 = doc ∧
    (applyToggles userId (doc, signatories) ops).1.status ≠ DocStatus.completed := by
  have h := applyToggles_fst_of_rejected userId doc hrej ops signatories
  refine ⟨h, ?_⟩
  rw [h]
  exact hnc

/-- Document for the claim C6 witness: requires approval, rejected. -/
def c6Doc : Document :=
  { id := 6, name := "Budget Approval Request", requires_admin_approval := true,
    admin_approved := some false, admin_approved_by := some 2,
    admin_approved_at := some 4, status := DocStatus.in_progress }

/-- Signatory for the claim C6 witness, unsigned. -/
def c6Sig : Signatory :=
  { id := 61, name := "A Dean", is_signed := false, signed_at := none,
    notes := "", order_index := 0, created_at := 0 }

/-- C6, witness: signing the only signatory of a rejected document leaves
the document row unchanged and the status not completed. -/
theorem claim6_witness :
    (applyToggles 7 (c6Doc, [c6Sig]) [(61, true, 9)]).1 = c6Doc ∧
    (applyToggles 7 (c6Doc, [c6Sig]) [(61, true, 9)]).1.status ≠ DocStatus.completed :=
  claim6_rejected_never_completes c6Doc [c6Sig] 7 [(61, true, 9)] rfl rfl (by decide)

/-- C7: a file larger than 10 MiB is rejected with a user-visible error,
no storage call is issued, and the pending-upload state is unchanged. -/
theorem claim7_oversized_upload_rejected (uploadedFile : Option UploadedFile)
    (f : File) (userId : String) (now : Nat)
    (hsize : 10 * 1024 * 1024 < f.size) :
    (handleFileUpload uploadedFile (some f) userId now).errorMessage =
      some "File size must be less than 10MB" ∧
    (handleFileUpload uploadedFile (some f) userId now).storageCalls = [] ∧
    (handleFileUpload uploadedFile (some f) userId now).uploadedFile = uploadedFile := by
  simp [handleFileUpload, hsize]

/-- C7, witness: a file one byte over the limit. -/
theorem claim7_witness :
    (handleFileUpload none (some { name := "big.pdf", size := 10485761 }) "u1" 5).errorMessage =
      some "File size must be less than 10MB" ∧
    (handleFileUpload none (some { name := "big.pdf", size := 10485761 }) "u1" 5).storageCalls = [] ∧
    (handleFileUpload none (some { name := "big.pdf", size := 10485761 }) "u1" 5).uploadedFile = none :=
  claim7_oversized_upload_rejected none { name := "big.pdf", size := 10485761 } "u1" 5
    (by decide)

/-- C8: a submission whose document name is shorter than 3 characters fails
the client-side validation, so no document, signatory or activity row is
inserted. -/
theorem claim8_short_name_no_inserts (form : DocumentForm)
    (uploadedFile : Option UploadedFile) (userId docId : Nat)
    (hname : form.name.length < 3) :
    (submitCreateDocument form uploadedFile userId docId).documentInserts = [] ∧
    (submitCreateDocument form uploadedFile userId docId).signatoryInserts = [] ∧
    (submitCreateDocument form uploadedFile userId docId).activityInserts = [] := by
  have h3 : ¬ (3 ≤ form.name.length) := Nat.not_le.mpr hname
  have hv : formValid form = false := by
    simp [formValid, h3]
  simp [submitCreateDocument, hv]

/-- Form for the claim C8 witness: a two-character name with a file
attached. -/
def c8Form : DocumentForm :=
  { name := "ab", description := "x", requires_admin_approval := false,
    signatories :=
      [{ name := "A Dean", position := "", email := "", phone := "", order_index := 0 }] }

/-- Upload reference for the claim C8 witness. -/
def c8File : UploadedFile :=
  { name := "form.pdf", url := "storage/documents/u1/5.pdf", path := "u1/5.pdf" }

/-- C8, witness at a concrete two-character name. -/
theorem claim8_witness :
    (submitCreateDocument c8Form (some c8File) 2 9).documentInserts = [] ∧
    (submitCreateDocument c8Form (some c8File) 2 9).signatoryInserts = [] ∧
    (submitCreateDocument c8Form (some c8File) 2 9).activityInserts = [] :=
  claim8_short_name_no_inserts c8Form (some c8File) 2 9 (by decide)

/-- C9: a toggle invoked without an explicit note writes the empty string
into the notes column of the target signatory, in either direction, erasing
any note previously stored there. -/
theorem claim9_toggle_writes_default_note (doc : Document)
    (signatories : List Signatory) (userId signatoryId : Nat) (isSigned : Bool)
    (now : Nat) :
    (((updateSignatureStatusNoNote doc signatories userId signatoryId isSigned now).signatories.filter
        fun s => s.id == signatoryId).all fun s => s.notes == "") = true := by
  rw [updateSignatureStatusNoNote, updateSignatureStatus_signatories_def]
  apply List.all_eq_true.mpr
  intro x hx
  obtain ⟨hmemf, hidf⟩ := List.mem_filter.mp hx
  obtain ⟨orig, horig, rfl⟩ := List.mem_map.mp hmemf
  by_cases h : orig.id = signatoryId
  · simp [h]
  · rw [if_neg h] at hidf
    simp at hidf
    exact absurd hidf h

/-- C10: after blank-name signatories are dropped, the inserted signatory
rows carry order_index values 0, 1, 2, ... in the order the remaining form
entries were listed, whatever order_index values the form entries carried. -/
theorem claim10_order_index_consecutive (form : DocumentForm) (uf : UploadedFile)
    (userId docId : Nat) (hvalid : formValid form = true) :
    ((submitCreateDocument form (some uf) userId docId).signatoryInserts.map
        fun s => s.order_index) =
      List.range (form.signatories.filter fun s => s.name.trim != "").length ∧
    ((submitCreateDocument form (some uf) userId docId).signatoryInserts.map
        fun s => s.name) =
      (form.signatories.filter fun s => s.name.trim != "").map fun s => s.name := by
  simp [submitCreateDocument, hvalid, buildSignatoryInserts_map_order_index,
    buildSignatoryInserts_map_name, List.range_eq_range']

/-- Form for the claim C10 witness: three signatories, the middle one blank
after trimming, all carrying arbitrary order_index values. -/
def c10Form : DocumentForm :=
  { name := "Field Trip Form", description := "", requires_admin_approval := false,
    signatories :=
      [{ name := "A Dean", position := "Dean", email := "", phone := "", order_index := 5 },
       { name := " ", position := "", email := "", phone := "", order_index := 9 },
       { name := "B Principal", position := "", email := "", phone := "", order_index := 0 }] }

/-- Upload reference for the claim C10 witness. -/
def c10File : UploadedFile :=
  { name := "trip.pdf", url := "storage/documents/u2/6.pdf", path := "u2/6.pdf" }

/-- C10, witness at a concrete form with a dropped blank signatory. -/
theorem claim10_witness :
    ((submitCreateDocument c10Form (some c10File) 2 9).signatoryInserts.map
        fun s => s.order_index) =
      List.range (c10Form.signatories.filter fun s => s.name.trim != "").length ∧
    ((submitCreateDocument c10Form (some c10File) 2 9).signatoryInserts.map
        fun s => s.name) =
      (c10Form.signatories.filter fun s => s.name.trim != "").map fun s => s.name :=
  claim10_order_index_consecutive c10Form c10File 2 9 (by decide)

end DocTracker
